import Mathlib

/-!
Verification of the weathercli repository (src/main.rs, src/providers.rs,
src/caching.rs) against its natural-language specification.

Shallow-embedding conventions:
- Rust `f32`/`f64` values are modelled as rationals (`ℚ`); the concrete
  values appearing in the spec are short decimals, exactly representable.
- Each outbound HTTP call is abstracted as the decoded response the vendor
  returns for it (or a transport/decode failure), supplied as an explicit
  argument; `reqwest::Error` values surfaced through `?` are the
  recoverable error channel.
- A Rust `panic!`/`unwrap`/`expect` abort is modelled as a distinguished
  `panicked` outcome, separate from the recoverable `err` outcome.
- `chrono` timestamps and durations are modelled as integers (seconds).
- All executable definitions compute on `num`/`den` integer components
  directly so that concrete runs reduce inside the kernel.
-/

/-- Rust enum `ConfigWeatherProvider` from src/main.rs. -/
inductive ConfigWeatherProvider where
  | OpenMeteo
  | OpenWeatherMap
  deriving DecidableEq

/-- Rust enum `ConfigLocation` from src/main.rs: `City(String, String)`
(city, country) or `Coordinates(f32, f32)` (latitude, longitude). -/
inductive ConfigLocation where
  | City : String → String → ConfigLocation
  | Coordinates : ℚ → ℚ → ConfigLocation
  deriving DecidableEq

/-- Rust enum `ConfigUnits` from src/main.rs. -/
inductive ConfigUnits where
  | Metric
  | Imperial
  deriving DecidableEq

/-- Rust enum `ConfigTimeFormat` from src/main.rs. -/
inductive ConfigTimeFormat where
  | H24
  | H12
  deriving DecidableEq

/-- Rust struct `Config` from src/main.rs.  `caching_duration` is a
`chrono::Duration`, modelled as a number of seconds. -/
structure Config where
  provider : ConfigWeatherProvider
  api_key : Option String
  location : Option ConfigLocation
  units : ConfigUnits
  time_format : ConfigTimeFormat
  caching_duration : Int
  deriving DecidableEq

/-- Rust enum `WeatherCondition` from src/main.rs. -/
inductive WeatherCondition where
  | Clear
  | PartlyCloudy
  | Overcast
  | Foggy
  | Drizzle
  | Rainy
  | Snowy
  | SnowGrains
  | RainShowers
  | SnowShowers
  | Thunderstorms
  | Unknown
  deriving DecidableEq

/-- Rust struct `WeatherData` from src/main.rs. -/
structure WeatherData where
  temperature : String
  feels_like : String
  wind_speed : String
  wind_direction : String
  condition : WeatherCondition
  deriving DecidableEq

/-- Rust `ConfigUnits::temperature` from src/main.rs. -/
def ConfigUnits.temperature : ConfigUnits → String
  | .Metric => "celsius"
  | .Imperial => "fahrenheit"

/-- Rust `ConfigUnits::speed` from src/main.rs. -/
def ConfigUnits.speed : ConfigUnits → String
  | .Metric => "kmh"
  | .Imperial => "mph"

/-- Rust `ConfigUnits::to_string` from src/main.rs. -/
def ConfigUnits.to_string : ConfigUnits → String
  | .Metric => "metric"
  | .Imperial => "imperial"

/-- Rust numeric cast `x as i32` (or `as i64`) applied to a float, as
used on the temperature fields in src/providers.rs: truncation toward zero
(the saturating out-of-range behaviour of the cast is out of scope; all
values in the claims are small). -/
def floatAsInt (q : ℚ) : Int :=
  q.num.tdiv q.den

/-- Decimal digit characters of the proper fraction `num / den`
(`0 ≤ num < den`), stopping when the remainder is zero.  `fuel` bounds the
number of digits produced. -/
def fracDecimals : Nat → Nat → Nat → List Char
  | 0, _, _ => []
  | fuel + 1, num, den =>
    let num10 := 10 * num
    let d := num10 / den
    let r := num10 % den
    Nat.digitChar d :: (if r = 0 then [] else fracDecimals fuel r den)

/-- Rust default `Display` formatting of a float value (the `"{}"` format,
used for `wind_speed_10m` in `OpenMeteo::fetch_weather` and for the
Imperial branch of `OpenWeatherMap::fetch_weather`): the shortest decimal
expansion of the value, with no decimal point for integral values.  The
float is modelled as the exact (short-decimal) rational it displays as. -/
def ratDecString (q : ℚ) : String :=
  let sgn := if q.num < 0 then "-" else ""
  let a := q.num.natAbs
  let den := q.den
  let ip := a / den
  let r := a % den
  if r = 0 then sgn ++ toString ip
  else sgn ++ toString ip ++ "." ++ String.mk (fracDecimals 64 r den)

/-- Rust fixed-precision formatting of a float with one decimal digit (the
`"{:.1}"` format used in the Metric branch of
`OpenWeatherMap::fetch_weather`): round to the nearest tenth, ties to
even.  (The `-0.0` sign edge case of Rust is not modelled; all uses in the
claims are nonnegative.) -/
def ratFixed1String (q : ℚ) : String :=
  let n10 := 10 * q.num
  let den : Int := q.den
  let f := n10 / den
  let r := n10 % den
  let t := if 2 * r < den then f
           else if den < 2 * r then f + 1
           else if f % 2 = 0 then f else f + 1
  let sgn := if t < 0 then "-" else ""
  let a := t.natAbs
  sgn ++ toString (a / 10) ++ "." ++ toString (a % 10)

/-- Rust `degree_to_direction` from src/providers.rs (lines 208-221).  The
argument is an `i16`, modelled as `Int`. -/
def degree_to_direction (degree : Int) : String :=
  if 0 ≤ degree ∧ degree ≤ 22 then "N"
  else if 23 ≤ degree ∧ degree ≤ 67 then "NE"
  else if 68 ≤ degree ∧ degree ≤ 112 then "E"
  else if 113 ≤ degree ∧ degree ≤ 157 then "SE"
  else if 158 ≤ degree ∧ degree ≤ 202 then "S"
  else if 203 ≤ degree ∧ degree ≤ 247 then "SW"
  else if 248 ≤ degree ∧ degree ≤ 292 then "W"
  else if 293 ≤ degree ∧ degree ≤ 337 then "NW"
  else "N"

/-- Condition table of `OpenMeteo::fetch_weather` (src/providers.rs lines
96-112): the `match res.current.weather_code` expression, arm by arm. -/
def openMeteoCondition (weather_code : Int) : WeatherCondition :=
  if weather_code = 0 ∨ weather_code = 1 then .Clear
  else if weather_code = 2 then .PartlyCloudy
  else if weather_code = 3 then .Overcast
  else if weather_code = 45 ∨ weather_code = 48 then .Foggy
  else if weather_code = 51 ∨ weather_code = 53 ∨ weather_code = 55 ∨
          weather_code = 56 ∨ weather_code = 57 then .Drizzle
  else if weather_code = 61 ∨ weather_code = 63 ∨ weather_code = 65 ∨
          weather_code = 66 ∨ weather_code = 67 then .Rainy
  else if weather_code = 71 ∨ weather_code = 73 ∨ weather_code = 75 then .Snowy
  else if weather_code = 77 then .SnowGrains
  else if 80 ≤ weather_code ∧ weather_code ≤ 82 then .RainShowers
  else if weather_code = 85 ∨ weather_code = 86 then .SnowShowers
  else if weather_code = 95 ∨ weather_code = 96 ∨ weather_code = 99 then .Thunderstorms
  else .Unknown

/-- Condition table of `OpenWeatherMap::fetch_weather` (src/providers.rs
lines 188-200): the inner `match weather.id` expression, arm by arm.  The
`id` field is an `i64`, modelled as `Int`. -/
def owmConditionId (id : Int) : WeatherCondition :=
  if 200 ≤ id ∧ id ≤ 232 then .Thunderstorms
  else if 300 ≤ id ∧ id ≤ 321 then .Drizzle
  else if (500 ≤ id ∧ id ≤ 504) ∨ id = 511 then .Rainy
  else if 520 ≤ id ∧ id ≤ 531 then .RainShowers
  else if (600 ≤ id ∧ id ≤ 602) ∨ (611 ≤ id ∧ id ≤ 616) then .Snowy
  else if 620 ≤ id ∧ id ≤ 622 then .SnowShowers
  else if id = 741 then .Foggy
  else if id = 800 then .Clear
  else if 801 ≤ id ∧ id ≤ 802 then .PartlyCloudy
  else if 803 ≤ id ∧ id ≤ 804 then .Overcast
  else .Unknown

/-- Cause of a `reqwest::Error` surfaced by the `?` operator in the fetch
implementations: the transport failed, or the body did not decode.  The
distinction is opaque to the code under verification. -/
inductive ReqErr where
  | transport
  | decode
  deriving DecidableEq

/-- Outcome of running one of the Rust fetch implementations: a normal
return `Ok(WeatherData)`, a recoverable `Err(reqwest::Error)` propagated by
`?`, or a process abort raised by a panic, carrying the panic message. -/
inductive FetchOutcome (α : Type) where
  | ok : α → FetchOutcome α
  | err : ReqErr → FetchOutcome α
  | panicked : String → FetchOutcome α
  deriving DecidableEq

/-- Whether an outcome is a process abort. -/
def FetchOutcome.isPanicked : FetchOutcome α → Bool
  | .panicked _ => true
  | _ => false

/-- Whether an outcome is a recoverable error. -/
def FetchOutcome.isErr : FetchOutcome α → Bool
  | .err _ => true
  | _ => false

/-- Panic message of `Option::unwrap` on `None` (backticks of the original
Rust message elided). -/
def unwrapNoneMsg : String := "called Option::unwrap() on a None value"

/-- One geocoding result of the open-meteo geocoding API (the anonymous
`Struct` in `OpenMeteo::fetch_weather`). -/
structure GeoResult where
  latitude : ℚ
  longitude : ℚ
  deriving DecidableEq

/-- Decoded body of the geocoding call (the anonymous `Root`). -/
structure GeoRoot where
  results : List GeoResult
  deriving DecidableEq

/-- Decoded `current` block of the open-meteo forecast response (the
anonymous `Current` struct in `OpenMeteo::fetch_weather`). -/
structure OmCurrent where
  time : String
  interval : Int
  apparent_temperature : ℚ
  wind_speed_10m : ℚ
  wind_direction_10m : Int
  temperature_2m : ℚ
  weather_code : Int
  deriving DecidableEq

/-- Decoded `current_units` block of the open-meteo forecast response (the
anonymous `CurrentUnits` struct): the vendor-reported unit strings. -/
structure OmCurrentUnits where
  time : String
  interval : String
  apparent_temperature : String
  wind_speed_10m : String
  wind_direction_10m : String
  temperature_2m : String
  weather_code : String
  deriving DecidableEq

/-- Decoded body of the open-meteo forecast call (the anonymous `Root`). -/
structure OmRoot where
  current_units : OmCurrentUnits
  current : OmCurrent
  deriving DecidableEq

/-- The two HTTP calls `OpenMeteo::fetch_weather` can make, abstracted as
the decoded responses they produce (`Except.error` for a transport or
decode failure surfaced by `?`).  The geocode call is only consulted on the
`City` path, mirroring the source. -/
structure OmHttp where
  geocode : Except ReqErr GeoRoot
  forecast : Except ReqErr OmRoot

/-- Construction of the returned `WeatherData` in `OpenMeteo::fetch_weather`
(src/providers.rs lines 82-113): the final `Ok(..)` expression, field by
field. -/
def OpenMeteo.normalize (res : OmRoot) : WeatherData :=
  ⟨toString (floatAsInt res.current.temperature_2m) ++ res.current_units.temperature_2m,
   toString (floatAsInt res.current.apparent_temperature) ++ res.current_units.apparent_temperature,
   ratDecString res.current.wind_speed_10m ++ res.current_units.wind_speed_10m,
   degree_to_direction res.current.wind_direction_10m,
   openMeteoCondition res.current.weather_code⟩

/-- Rust `OpenMeteo::fetch_weather` (src/providers.rs lines 12-115).  The
coordinates only feed the forecast URL, which the HTTP abstraction elides,
so they are discarded once resolved, exactly as the control flow does. -/
def OpenMeteo.fetch_weather (config : Config) (http : OmHttp) : FetchOutcome WeatherData :=
  match config.location with
  | none => .panicked unwrapNoneMsg
  | some loc =>
    let step1 : FetchOutcome (ℚ × ℚ) :=
      match loc with
      | .Coordinates lat lon => .ok (lat, lon)
      | .City _ _ =>
        match http.geocode with
        | .error e => .err e
        | .ok res =>
          match res.results.head? with
          | none => .panicked ("No City found, check your config")
          | some data => .ok (data.latitude, data.longitude)
    match step1 with
    | .panicked m => .panicked m
    | .err e => .err e
    | .ok _ =>
      match http.forecast with
      | .error e => .err e
      | .ok res => .ok (OpenMeteo.normalize res)

/-- Decoded `wind` block of the openweathermap response (the anonymous
`Wind` struct in `OpenWeatherMap::fetch_weather`). -/
structure OwmWind where
  deg : Int
  speed : ℚ
  deriving DecidableEq

/-- One entry of the `weather` list of the openweathermap response (the
anonymous `Struct`). -/
structure OwmWeatherEntry where
  description : String
  icon : String
  id : Int
  main : String
  deriving DecidableEq

/-- Decoded `main` block of the openweathermap response (the anonymous
`Main` struct). -/
structure OwmMain where
  feels_like : ℚ
  temp : ℚ
  deriving DecidableEq

/-- Decoded body of the openweathermap call (the anonymous `Root`). -/
structure OwmRoot where
  main : OwmMain
  weather : List OwmWeatherEntry
  wind : OwmWind
  deriving DecidableEq

/-- The single HTTP call `OpenWeatherMap::fetch_weather` makes, abstracted
as the decoded response it produces. -/
structure OwmHttp where
  weather : Except ReqErr OwmRoot

/-- Condition of the openweathermap response (src/providers.rs lines
185-203): first entry of the `weather` list, `Unknown` when the list is
empty. -/
def owmCondition (weather : List OwmWeatherEntry) : WeatherCondition :=
  match weather.head? with
  | some w => owmConditionId w.id
  | none => .Unknown

/-- Construction of the returned `WeatherData` in
`OpenWeatherMap::fetch_weather` (src/providers.rs lines 170-204),
including the `temp_unit` and `wind_speed` local bindings. -/
def OpenWeatherMap.normalize (units : ConfigUnits) (res : OwmRoot) : WeatherData :=
  let temp_unit := match units with
    | .Imperial => "°F"
    | .Metric => "°C"
  let wind_speed := match units with
    | .Metric => ratFixed1String res.wind.speed ++ "km/h"
    | .Imperial => ratDecString res.wind.speed ++ "mph"
  ⟨toString (floatAsInt res.main.temp) ++ temp_unit,
   toString (floatAsInt res.main.feels_like) ++ temp_unit,
   wind_speed,
   degree_to_direction res.wind.deg,
   owmCondition res.weather⟩

/-- Rust `OpenWeatherMap::fetch_weather` (src/providers.rs lines 117-206).
The api key and location only feed the request URL, which the HTTP
abstraction elides; the source checks the api key first, then unwraps the
location. -/
def OpenWeatherMap.fetch_weather (config : Config) (http : OwmHttp) : FetchOutcome WeatherData :=
  match config.api_key with
  | none => .panicked ("Missing API key")
  | some _ =>
    match config.location with
    | none => .panicked unwrapNoneMsg
    | some _ =>
      match http.weather with
      | .error e => .err e
      | .ok res => .ok (OpenWeatherMap.normalize config.units res)

/-- Rust struct `CacheData` from src/caching.rs; the `chrono` timestamp is
modelled as seconds. -/
structure CacheData where
  timestamp : Int
  data : WeatherData
  deriving DecidableEq

/-- State of the cache file as `load` observes it: missing, present but
unreadable, or readable with some contents. -/
inductive FileRead where
  | absent
  | unreadable
  | readable : String → FileRead
  deriving DecidableEq

/-- Rust `load` from src/caching.rs (lines 29-49).  The filesystem is
abstracted by `file`, `chrono::Local::now()` by `now`, and the
`toml::from_str::<CacheData>` deserializer by `decode` (a malformed
content is one on which `decode` returns `none`). -/
def load (decode : String → Option CacheData) (file : FileRead) (now : Int)
    (config : Config) : Option WeatherData :=
  match file with
  | .absent => none
  | .unreadable => none
  | .readable content =>
    match decode content with
    | none => none
    | some data =>
      if now - data.timestamp < config.caching_duration then some data.data
      else none

/-- Parse the accumulated decimal digits of a character list; `none` as
soon as a non-digit appears.  Helper for `parseI64`. -/
def digitsToNatAux : List Char → Nat → Option Nat
  | [], acc => some acc
  | c :: cs, acc =>
    if c.isDigit then digitsToNatAux cs (10 * acc + (c.toNat - 48))
    else none

/-- Nonempty all-digit character list to its value. -/
def digitsToNat : List Char → Option Nat
  | [] => none
  | c :: cs => digitsToNatAux (c :: cs) 0

/-- Rust `str::parse::<i64>()`: an optional sign followed by one or more
ASCII digits, rejected when the value overflows `i64`. -/
def parseI64 (cs : List Char) : Option Int :=
  let signAndDigits : Int × List Char :=
    match cs with
    | [] => (1, [])
    | c :: rest =>
      if c = '+' then (1, rest)
      else if c = '-' then (-1, rest)
      else (1, c :: rest)
  match digitsToNat signAndDigits.2 with
  | none => none
  | some n =>
    let v : Int := signAndDigits.1 * n
    if -(2 ^ 63) ≤ v ∧ v ≤ 2 ^ 63 - 1 then some v else none

/-- Rust `str::find`: byte index of the first occurrence of `pat` (all
strings in scope are ASCII, so byte and character indices coincide). -/
def findSub (pat : List Char) : List Char → Option Nat
  | [] => if pat = [] then some 0 else none
  | c :: rest =>
    if pat.isPrefixOf (c :: rest) then some 0
    else (findSub pat rest).map (· + 1)

/-- Outcome of running `parse_duration`: a normal return of
`Option<Duration>` (the duration modelled as seconds), or a process abort
raised by a panic inside the call, carrying the panic message. -/
inductive ParseResult where
  | ret : Option Int → ParseResult
  | panicked : String → ParseResult
  deriving DecidableEq

/-- Whether a parse run returned normally with a value. -/
def ParseResult.returnsSome : ParseResult → Bool
  | .ret (some _) => true
  | _ => false

/-- Whether a parse run aborted the process. -/
def ParseResult.isPanicked : ParseResult → Bool
  | .panicked _ => true
  | _ => false

/-- Largest `h` for which `chrono::Duration::hours(h)` is in bounds: a
chrono `Duration` holds at most `i64::MAX` milliseconds, so whole-second
durations are bounded by `i64::MAX / 1000 = 9223372036854775` seconds
(symmetrically below, since the minimum is `-i64::MAX` milliseconds), and
hours by `9223372036854775 / 3600` rounded down.  Beyond this the
constructor panics instead of returning. -/
def chronoMaxHours : Int := 2562047788015

/-- Largest `m` for which `chrono::Duration::minutes(m)` is in bounds:
`9223372036854775 / 60` rounded down (see `chronoMaxHours`). -/
def chronoMaxMinutes : Int := 153722867280912

/-- Rust `parse_duration` from src/main.rs (lines 287-297).  A
`chrono::Duration` is modelled as a number of seconds: `Duration::hours h`
is `3600 * h` and `Duration::minutes m` is `60 * m`, except that chrono's
constructors panic when the result would exceed the `Duration` range
(`±i64::MAX` milliseconds) — that abort is the `panicked` outcome (the
exact panic message text is inessential to the embedding). -/
def parse_duration (s : String) : ParseResult :=
  match findSub ['h'] s.toList with
  | some h_pos =>
    match parseI64 (s.toList.take h_pos) with
    | some hours =>
      if -chronoMaxHours ≤ hours ∧ hours ≤ chronoMaxHours then
        .ret (some (3600 * hours))
      else .panicked ("Duration::hours out of bounds")
    | none => .ret none
  | none =>
    match findSub ['m', 'i', 'n'] s.toList with
    | some min_pos =>
      match parseI64 (s.toList.take min_pos) with
      | some minutes =>
        if -chronoMaxMinutes ≤ minutes ∧ minutes ≤ chronoMaxMinutes then
          .ret (some (60 * minutes))
        else .panicked ("Duration::minutes out of bounds")
      | none => .ret none
    | none => .ret none

/-- Vendor A classification table as the spec words it (section 4.1),
written with the spec's code sets and ranges. -/
def specVendorACondition (code : Int) : WeatherCondition :=
  if code ∈ ({0, 1} : Finset Int) then .Clear
  else if code = 2 then .PartlyCloudy
  else if code = 3 then .Overcast
  else if code ∈ ({45, 48} : Finset Int) then .Foggy
  else if code ∈ ({51, 53, 55, 56, 57} : Finset Int) then .Drizzle
  else if code ∈ ({61, 63, 65, 66, 67} : Finset Int) then .Rainy
  else if code ∈ ({71, 73, 75} : Finset Int) then .Snowy
  else if code = 77 then .SnowGrains
  else if code ∈ Finset.Icc 80 82 then .RainShowers
  else if code ∈ ({85, 86} : Finset Int) then .SnowShowers
  else if code ∈ ({95, 96, 99} : Finset Int) then .Thunderstorms
  else .Unknown

/-- Vendor B classification table as the spec words it (section 4.1). -/
def specVendorBCondition (id : Int) : WeatherCondition :=
  if id ∈ Finset.Icc 200 232 then .Thunderstorms
  else if id ∈ Finset.Icc 300 321 then .Drizzle
  else if id ∈ Finset.Icc 500 504 ∪ {511} then .Rainy
  else if id ∈ Finset.Icc 520 531 then .RainShowers
  else if id ∈ Finset.Icc 600 602 ∪ Finset.Icc 611 616 then .Snowy
  else if id ∈ Finset.Icc 620 622 then .SnowShowers
  else if id = 741 then .Foggy
  else if id = 800 then .Clear
  else if id ∈ Finset.Icc 801 802 then .PartlyCloudy
  else if id ∈ Finset.Icc 803 804 then .Overcast
  else .Unknown

/-- Wind-direction sector table as the spec words it (section 4.2).  The
final branch is outside the claim's domain of `[0, 360)` and is not
constrained by it. -/
def specDirectionTable (d : Int) : String :=
  if d ∈ Finset.Icc 0 22 then "N"
  else if d ∈ Finset.Icc 23 67 then "NE"
  else if d ∈ Finset.Icc 68 112 then "E"
  else if d ∈ Finset.Icc 113 157 then "SE"
  else if d ∈ Finset.Icc 158 202 then "S"
  else if d ∈ Finset.Icc 203 247 then "SW"
  else if d ∈ Finset.Icc 248 292 then "W"
  else if d ∈ Finset.Icc 293 337 then "NW"
  else if d ∈ Finset.Ico 338 360 then "N"
  else "N"

/-- Truncation toward zero of a numeric value to an integer, as the spec
words it ("truncated (not rounded) to integer degrees"): the floor for
nonnegative values and the ceiling for negative ones. -/
def specTruncTowardZero (q : ℚ) : Int :=
  if 0 ≤ q then ⌊q⌋ else ⌈q⌉

/-- Configuration of end-to-end scenario 1 of the spec: open-meteo,
explicit coordinates (52.5, 13.4), Metric units, 1-hour cache TTL. -/
def berlinConfig : Config :=
  ⟨.OpenMeteo, none, some (.Coordinates (mkRat 105 2) (mkRat 67 5)),
   .Metric, .H24, 3600⟩

/-- Mocked open-meteo forecast response of end-to-end scenario 1:
temperature_2m 18.7, apparent_temperature 17.2, wind_speed_10m 12.3,
wind_direction_10m 90, weather_code 2, with the vendor-reported Metric
unit strings. -/
def berlinForecast : OmRoot :=
  ⟨⟨"iso8601", "seconds", "°C", "km/h", "°", "°C", "wmo code"⟩,
   ⟨"2024-01-01T12:00", 900, mkRat 86 5, mkRat 123 10, 90, mkRat 187 10, 2⟩⟩

/-- HTTP responses for scenario 1 (the geocode call is never made on the
coordinate path; its mocked value is irrelevant). -/
def berlinHttp : OmHttp :=
  ⟨.ok ⟨[]⟩, .ok berlinForecast⟩

/-- An openweathermap response with fractional wind speed 12.3 (and
temperature 18.7, feels-like 17.2, wind degree 90, condition id 802). -/
def owmWindyRoot : OwmRoot :=
  ⟨⟨mkRat 86 5, mkRat 187 10⟩,
   [⟨"scattered clouds", "03d", 802, "Clouds"⟩],
   ⟨90, mkRat 123 10⟩⟩

/-- An openweathermap response with integral wind speed 12 and an empty
weather list. -/
def owmCalmRoot : OwmRoot :=
  ⟨⟨mkRat 86 5, mkRat 187 10⟩, [], ⟨90, mkRat 12 1⟩⟩

/-- Config of end-to-end scenario 2 of the spec: open-weather-map with no
api key (and an explicit location, so only the key is at issue). -/
def noKeyConfig : Config :=
  ⟨.OpenWeatherMap, none, some (.Coordinates (mkRat 105 2) (mkRat 67 5)),
   .Metric, .H24, 3600⟩

/-- A healthy openweathermap response, to show that the missing-key panic
does not depend on the network. -/
def okOwmHttp : OwmHttp := ⟨.ok owmWindyRoot⟩

/-- Config of end-to-end scenario 3 of the spec: open-meteo with the city
location ("Nowhere", "XX"). -/
def nowhereConfig : Config :=
  ⟨.OpenMeteo, none, some (.City ("Nowhere") ("XX")), .Metric, .H24, 3600⟩

/-- Mocked responses for scenario 3: the geocode call decodes to an empty
results list. -/
def emptyGeoHttp : OmHttp := ⟨.ok ⟨[]⟩, .ok berlinForecast⟩

/-- The WeatherData of scenario 1, reused as a cached snapshot value. -/
def sampleWeather : WeatherData :=
  ⟨"18°C", "17°C", "12.3km/h", "E", .PartlyCloudy⟩

/-- A cache snapshot taken at time 50. -/
def sampleCache : CacheData := ⟨50, sampleWeather⟩

/-- A decoder that accepts exactly the content "snapshot" (everything
else is malformed). -/
def sampleDecode : String → Option CacheData :=
  fun s => if s = "snapshot" then some sampleCache else none

/-- A config with an api key but no location. -/
def noLocConfig : Config := ⟨.OpenMeteo, some ("key"), none, .Metric, .H24, 3600⟩

/-- Numeric value of a most-significant-first ASCII digit string. -/
def digitsVal (ds : List Char) : Nat :=
  ds.foldl (fun acc c => 10 * acc + (c.toNat - 48)) 0

/-- Acceptance set of C9 as the claim words it: a nonempty (nonnegative)
digit literal followed by exactly "h" or exactly "min", nothing else. -/
def specC9Accepts (s : String) : Bool :=
  let l := s.toList
  let ds := l.takeWhile Char.isDigit
  !ds.isEmpty && (l == ds ++ ['h'] || l == ds ++ ['m', 'i', 'n'])

/-- Helper: the source's Vendor A arm-by-arm table coincides with the
spec's set-and-range table on every code. -/
theorem openMeteoCondition_eq_spec (code : Int) :
    openMeteoCondition code = specVendorACondition code := by
  simp only [openMeteoCondition, specVendorACondition, Finset.mem_insert,
    Finset.mem_singleton, Finset.mem_Icc]

/-- Helper: the source's Vendor B arm-by-arm table coincides with the
spec's range table on every id. -/
theorem owmConditionId_eq_spec (id : Int) :
    owmConditionId id = specVendorBCondition id := by
  simp only [owmConditionId, specVendorBCondition, Finset.mem_union,
    Finset.mem_insert, Finset.mem_singleton, Finset.mem_Icc]

/-- C4: the Vendor A (OpenMeteo) condition classifier is a total pure
function on numeric codes realizing exactly the spec's table — 0-1 Clear,
2 PartlyCloudy, 3 Overcast, 45/48 Foggy, 51/53/55/56/57 Drizzle,
61/63/65/66/67 Rainy, 71/73/75 Snowy, 77 SnowGrains, 80-82 RainShowers,
85/86 SnowShowers, 95/96/99 Thunderstorms, everything else (for example
17 or 100) Unknown. -/
theorem c4_vendorA_classifier :
    (∀ code : Int, openMeteoCondition code = specVendorACondition code) ∧
    openMeteoCondition 17 = .Unknown ∧ openMeteoCondition 100 = .Unknown :=
  ⟨openMeteoCondition_eq_spec, by decide, by decide⟩

/-- C5: the Vendor B (OpenWeatherMap) condition classifier realizes
exactly the spec's range table — 200-232 Thunderstorms, 300-321 Drizzle,
500-504/511 Rainy, 520-531 RainShowers, 600-602/611-616 Snowy, 620-622
SnowShowers, 741 Foggy, 800 Clear, 801-802 PartlyCloudy, 803-804 Overcast,
anything else (for example 805) Unknown — and an empty weather-descriptor
list classifies as Unknown rather than failing. -/
theorem c5_vendorB_classifier :
    (∀ id : Int, owmConditionId id = specVendorBCondition id) ∧
    owmCondition [] = .Unknown ∧
    (∀ (w : OwmWeatherEntry) (rest : List OwmWeatherEntry),
      owmCondition (w :: rest) = specVendorBCondition w.id) ∧
    owmConditionId 800 = .Clear ∧ owmConditionId 805 = .Unknown :=
  ⟨owmConditionId_eq_spec, rfl,
   fun w _ => owmConditionId_eq_spec w.id, by decide, by decide⟩

/-- C6: on the claim's domain `[0, 360)` the wind-direction mapping
returns exactly the compass point of the spec's sector table, and in
particular 0 N, 45 NE, 90 E, 180 S, 337 NW, 338 N, 359 N. -/
theorem c6_wind_direction :
    (∀ d : Int, 0 ≤ d → d < 360 →
      degree_to_direction d = specDirectionTable d) ∧
    degree_to_direction 0 = "N" ∧ degree_to_direction 45 = "NE" ∧
    degree_to_direction 90 = "E" ∧ degree_to_direction 180 = "S" ∧
    degree_to_direction 337 = "NW" ∧ degree_to_direction 338 = "N" ∧
    degree_to_direction 359 = "N" := by
  refine ⟨?_, by decide, by decide, by decide, by decide, by decide,
    by decide, by decide⟩
  intro d h0 h360
  simp only [degree_to_direction, specDirectionTable, Finset.mem_Icc,
    Finset.mem_Ico]
  split_ifs <;> rfl

/-- Witness for C6 at degree 45: the hypotheses hold and the mapping
agrees with the spec table there. -/
theorem c6_wind_direction_witness :
    degree_to_direction 45 = specDirectionTable 45 :=
  c6_wind_direction.1 45 (by decide) (by decide)

/-- Helper: the embedded float-to-int cast is exactly truncation toward
zero (floor on nonnegatives, ceiling on negatives). -/
theorem floatAsInt_eq_truncTowardZero (q : ℚ) :
    floatAsInt q = specTruncTowardZero q := by
  unfold floatAsInt specTruncTowardZero
  rcases le_or_lt 0 q with h | h
  · rw [if_pos h, Rat.floor_def]
    exact Int.tdiv_eq_ediv (Rat.num_nonneg.mpr h) (Int.natCast_nonneg _)
  · rw [if_neg (not_le.mpr h)]
    have hnum : q.num < 0 := by
      by_contra hc
      exact absurd (Rat.num_nonneg.mp (not_lt.mp hc)) (not_le.mpr h)
    have h1 : q.num.tdiv q.den = -((-q.num).tdiv q.den) := by
      rw [Int.neg_tdiv, neg_neg]
    have h2 : (-q.num).tdiv q.den = (-q.num) / (q.den : Int) :=
      Int.tdiv_eq_ediv (by omega) (Int.natCast_nonneg _)
    have h3 : (⌈q⌉ : Int) = -⌊-q⌋ := by
      rw [Int.floor_neg]; ring
    rw [h1, h2, h3, Rat.floor_def, Rat.num_neg_eq_neg_num, Rat.den_neg_eq_den]

/-- C7: both providers format temperature and feels-like by truncating the
raw value toward zero (never rounding) and suffixing a unit string — the
vendor-reported unit string for OpenMeteo, the UnitSystem-chosen symbol
for OpenWeatherMap — and scenario 1 of the spec evaluates as specified:
18.7 displays as "18°C", 17.2 as "17°C", and the whole result is
WeatherData("18°C", "17°C", "12.3km/h", "E", PartlyCloudy). -/
theorem c7_temperature_truncation :
    (∀ q : ℚ, floatAsInt q = specTruncTowardZero q) ∧
    (∀ res : OmRoot,
      (OpenMeteo.normalize res).temperature =
        toString (specTruncTowardZero res.current.temperature_2m) ++
          res.current_units.temperature_2m ∧
      (OpenMeteo.normalize res).feels_like =
        toString (specTruncTowardZero res.current.apparent_temperature) ++
          res.current_units.apparent_temperature) ∧
    (∀ res : OwmRoot,
      (OpenWeatherMap.normalize .Metric res).temperature =
        toString (specTruncTowardZero res.main.temp) ++ "°C" ∧
      (OpenWeatherMap.normalize .Metric res).feels_like =
        toString (specTruncTowardZero res.main.feels_like) ++ "°C" ∧
      (OpenWeatherMap.normalize .Imperial res).temperature =
        toString (specTruncTowardZero res.main.temp) ++ "°F" ∧
      (OpenWeatherMap.normalize .Imperial res).feels_like =
        toString (specTruncTowardZero res.main.feels_like) ++ "°F") ∧
    specTruncTowardZero (mkRat 187 10) = 18 ∧
    specTruncTowardZero (mkRat 86 5) = 17 ∧
    OpenMeteo.fetch_weather berlinConfig berlinHttp =
      .ok ⟨"18°C", "17°C", "12.3km/h", "E", .PartlyCloudy⟩ := by
  refine ⟨floatAsInt_eq_truncTowardZero, ?_, ?_, ?_, ?_, by decide⟩
  · intro res
    constructor
    · show toString (floatAsInt res.current.temperature_2m) ++ _ = _
      rw [floatAsInt_eq_truncTowardZero]
    · show toString (floatAsInt res.current.apparent_temperature) ++ _ = _
      rw [floatAsInt_eq_truncTowardZero]
  · intro res
    refine ⟨?_, ?_, ?_, ?_⟩ <;>
      · show toString (floatAsInt _) ++ _ = _
        rw [floatAsInt_eq_truncTowardZero]
  · rw [← floatAsInt_eq_truncTowardZero]; decide
  · rw [← floatAsInt_eq_truncTowardZero]; decide

/-- Helper: the one-decimal formatter always produces a string ending in a
dot followed by a single digit. -/
theorem ratFixed1String_shape (q : ℚ) :
    ∃ s : String, ∃ d : Nat, d < 10 ∧
      ratFixed1String q = s ++ "." ++ toString d :=
  ⟨_, _, Nat.mod_lt _ (by norm_num), rfl⟩

/-- Helper: the default float formatter displays an integral value with no
decimal point. -/
theorem ratDecString_natCast (n : Nat) :
    ratDecString (mkRat n 1) = toString n := by
  have h1 : (mkRat (n : Int) 1).num = (n : Int) := by
    rw [Rat.mkRat_one, Rat.num_intCast]
  have h2 : (mkRat (n : Int) 1).den = 1 := by
    rw [Rat.mkRat_one, Rat.den_intCast]
  simp only [ratDecString, h1, h2, Int.natAbs_ofNat, Nat.mod_one, Nat.div_one,
    if_neg (not_lt.mpr (Int.natCast_nonneg n)), if_true]
  rfl

/-- C8 counterexample: under Imperial units the vendor value 12.3 is
displayed as "12.3mph" — the output carries a decimal point, refuting the
claim that the Imperial wind-speed display has no decimal places. -/
theorem c8_wind_speed_counterexample :
    (OpenWeatherMap.normalize .Imperial owmWindyRoot).wind_speed = "12.3mph" ∧
    ¬ (∀ res : OwmRoot,
        '.' ∉ ((OpenWeatherMap.normalize .Imperial res).wind_speed).toList) :=
  ⟨by decide, fun h => absurd (h owmWindyRoot) (by decide)⟩

/-- C8 as amended: the wind-speed string takes its unit suffix from the
configured UnitSystem and passes the vendor number through unconverted;
under Metric it is formatted with exactly one decimal digit, while under
Imperial it uses Rust's default float formatting, which keeps the decimal
digits of a fractional value and prints integral values with none. -/
theorem c8_wind_speed_amended :
    (∀ res : OwmRoot, (OpenWeatherMap.normalize .Metric res).wind_speed =
        ratFixed1String res.wind.speed ++ "km/h") ∧
    (∀ res : OwmRoot, (OpenWeatherMap.normalize .Imperial res).wind_speed =
        ratDecString res.wind.speed ++ "mph") ∧
    (∀ res : OwmRoot, ∃ s : String, ∃ d : Nat, d < 10 ∧
        (OpenWeatherMap.normalize .Metric res).wind_speed =
          s ++ "." ++ toString d ++ "km/h") ∧
    (∀ (res : OwmRoot) (n : Nat), res.wind.speed = mkRat n 1 →
        (OpenWeatherMap.normalize .Imperial res).wind_speed =
          toString n ++ "mph") ∧
    (OpenWeatherMap.normalize .Metric owmWindyRoot).wind_speed = "12.3km/h" ∧
    (OpenWeatherMap.normalize .Metric owmCalmRoot).wind_speed = "12.0km/h" ∧
    (OpenWeatherMap.normalize .Imperial owmWindyRoot).wind_speed = "12.3mph" ∧
    (OpenWeatherMap.normalize .Imperial owmCalmRoot).wind_speed = "12mph" := by
  refine ⟨fun res => rfl, fun res => rfl, ?_, ?_, by decide, by decide,
    by decide, by decide⟩
  · intro res
    obtain ⟨s, d, hd, hs⟩ := ratFixed1String_shape res.wind.speed
    refine ⟨s, d, hd, ?_⟩
    rw [show (OpenWeatherMap.normalize .Metric res).wind_speed =
      ratFixed1String res.wind.speed ++ "km/h" from rfl, hs]
  · intro res n h
    show ratDecString res.wind.speed ++ "mph" = toString n ++ "mph"
    rw [h, ratDecString_natCast]

/-- Witness for C8 (amended) at the integral wind speed 12: the
pass-through clause's hypothesis holds and the Imperial display is
"12mph". -/
theorem c8_wind_speed_amended_witness :
    (OpenWeatherMap.normalize .Imperial owmCalmRoot).wind_speed =
      toString 12 ++ "mph" :=
  c8_wind_speed_amended.2.2.2.1 owmCalmRoot 12 rfl

/-- C1 counterexample: with `api_key = None` the OpenWeatherMap fetch does
not fail with a recoverable error at all — it aborts the process with the
panic "Missing API key". -/
theorem c1_missing_key_counterexample :
    OpenWeatherMap.fetch_weather noKeyConfig okOwmHttp =
      .panicked ("Missing API key") ∧
    (OpenWeatherMap.fetch_weather noKeyConfig okOwmHttp).isErr = false :=
  ⟨rfl, rfl⟩

/-- C1 as amended: with `api_key = None` the OpenWeatherMap fetch panics
with "Missing API key" (a process abort, not a recoverable error), and it
does so before any network call — the outcome is the same for every
response the network could give. -/
theorem c1_missing_key_amended (config : Config) (http : OwmHttp)
    (h : config.api_key = none) :
    OpenWeatherMap.fetch_weather config http = .panicked ("Missing API key") := by
  unfold OpenWeatherMap.fetch_weather
  rw [h]

/-- Witness for C1 (amended) at scenario 2's config. -/
theorem c1_missing_key_amended_witness :
    OpenWeatherMap.fetch_weather noKeyConfig okOwmHttp =
      .panicked ("Missing API key") :=
  c1_missing_key_amended noKeyConfig okOwmHttp rfl

/-- C2 counterexample: when geocoding returns an empty results list the
OpenMeteo fetch does not fail with a recoverable error — it aborts the
process with the `expect` panic "No City found, check your config". -/
theorem c2_geocode_empty_counterexample :
    OpenMeteo.fetch_weather nowhereConfig emptyGeoHttp =
      .panicked ("No City found, check your config") ∧
    (OpenMeteo.fetch_weather nowhereConfig emptyGeoHttp).isErr = false :=
  ⟨rfl, rfl⟩

/-- C2 as amended: for a City location, when the geocode response decodes
to an empty results list the OpenMeteo fetch aborts the process with the
panic "No City found, check your config" (not a recoverable error). -/
theorem c2_geocode_empty_amended (config : Config) (http : OmHttp)
    (city country : String)
    (hloc : config.location = some (.City city country))
    (hgeo : http.geocode = .ok ⟨[]⟩) :
    OpenMeteo.fetch_weather config http =
      .panicked ("No City found, check your config") := by
  unfold OpenMeteo.fetch_weather
  rw [hloc, hgeo]
  rfl

/-- Witness for C2 (amended) at scenario 3's config and mocked geocode
response. -/
theorem c2_geocode_empty_amended_witness :
    OpenMeteo.fetch_weather nowhereConfig emptyGeoHttp =
      .panicked ("No City found, check your config") :=
  c2_geocode_empty_amended nowhereConfig emptyGeoHttp ("Nowhere") ("XX") rfl rfl

/-- C3: for every TTL, observation time, decoder and cache state, `load`
returns `none` when the file is absent, unreadable or malformed (never
crashing the caller), returns `none` when `now - timestamp >= ttl`, and
otherwise returns exactly the stored result. -/
theorem c3_cache_load (decode : String → Option CacheData) (now : Int)
    (config : Config) :
    load decode .absent now config = none ∧
    load decode .unreadable now config = none ∧
    (∀ content : String, decode content = none →
      load decode (.readable content) now config = none) ∧
    (∀ (content : String) (d : CacheData), decode content = some d →
      config.caching_duration ≤ now - d.timestamp →
      load decode (.readable content) now config = none) ∧
    (∀ (content : String) (d : CacheData), decode content = some d →
      now - d.timestamp < config.caching_duration →
      load decode (.readable content) now config = some d.data) := by
  refine ⟨rfl, rfl, ?_, ?_, ?_⟩
  · intro content h
    simp only [load, h]
  · intro content d h hstale
    simp only [load, h]
    rw [if_neg (not_lt.mpr hstale)]
  · intro content d h hfresh
    simp only [load, h]
    rw [if_pos hfresh]

/-- Witness for C3 with a 1-hour TTL: miss on absence, unreadability and
malformed content, miss once `now - timestamp ≥ ttl`, hit with the exact
stored value while fresh. -/
theorem c3_cache_load_witness :
    load sampleDecode .absent 100 berlinConfig = none ∧
    load sampleDecode .unreadable 100 berlinConfig = none ∧
    load sampleDecode (.readable ("garbage")) 100 berlinConfig = none ∧
    load sampleDecode (.readable ("snapshot")) 99999 berlinConfig = none ∧
    load sampleDecode (.readable ("snapshot")) 100 berlinConfig =
      some sampleWeather := by
  obtain ⟨h1, h2, h3, -, h5⟩ := c3_cache_load sampleDecode 100 berlinConfig
  obtain ⟨-, -, -, h4, -⟩ := c3_cache_load sampleDecode 99999 berlinConfig
  exact ⟨h1, h2, h3 ("garbage") (by decide),
    h4 ("snapshot") sampleCache (by decide) (by decide),
    h5 ("snapshot") sampleCache (by decide) (by decide)⟩

/-- C10: both fetch implementations require `location` to be `Some`: with
`location = None` the OpenMeteo fetch panics on the `unwrap` for every
network behaviour, and so does the OpenWeatherMap fetch — on the same
`unwrap` when an api key is present (the source checks the key first, so
without one the "Missing API key" panic fires instead; the call still
aborts). -/
theorem c10_location_precondition :
    (∀ (config : Config) (http : OmHttp), config.location = none →
      OpenMeteo.fetch_weather config http = .panicked unwrapNoneMsg) ∧
    (∀ (config : Config) (http : OwmHttp) (k : String),
      config.location = none → config.api_key = some k →
      OpenWeatherMap.fetch_weather config http = .panicked unwrapNoneMsg) ∧
    (∀ (config : Config) (http : OwmHttp), config.location = none →
      (OpenWeatherMap.fetch_weather config http).isPanicked = true) := by
  refine ⟨?_, ?_, ?_⟩
  · intro config http h
    unfold OpenMeteo.fetch_weather
    rw [h]
  · intro config http k h hk
    unfold OpenWeatherMap.fetch_weather
    rw [hk, h]
  · intro config http h
    unfold OpenWeatherMap.fetch_weather
    cases hk : config.api_key with
    | none => rfl
    | some k => rw [h]; rfl

/-- Witness for C10: at a concrete keyed, location-less config both
fetches abort with the unwrap panic. -/
theorem c10_location_precondition_witness :
    OpenMeteo.fetch_weather noLocConfig emptyGeoHttp = .panicked unwrapNoneMsg ∧
    OpenWeatherMap.fetch_weather noLocConfig okOwmHttp = .panicked unwrapNoneMsg :=
  ⟨c10_location_precondition.1 noLocConfig emptyGeoHttp rfl,
   c10_location_precondition.2.1 noLocConfig okOwmHttp ("key") rfl rfl⟩

/-- Helper: on an all-digit list the digit accumulator succeeds and
computes the left fold of the digit values. -/
theorem digitsToNatAux_all_digits (ds : List Char) :
    ∀ acc : Nat, (∀ c ∈ ds, c.isDigit) →
      digitsToNatAux ds acc =
        some (ds.foldl (fun acc c => 10 * acc + (c.toNat - 48)) acc) := by
  induction ds with
  | nil => intro acc _; rfl
  | cons c cs ih =>
    intro acc h
    have hc : c.isDigit := h c (List.mem_cons_self c cs)
    rw [show digitsToNatAux (c :: cs) acc =
      (if c.isDigit then digitsToNatAux cs (10 * acc + (c.toNat - 48))
       else none) from rfl, if_pos hc]
    exact ih _ (fun x hx => h x (List.mem_cons_of_mem c hx))

/-- Helper: the first "h" in `ds ++ "h"` with no "h" inside `ds` is at
index `ds.length`. -/
theorem findSub_h (ds : List Char) (h : 'h' ∉ ds) :
    findSub ['h'] (ds ++ ['h']) = some ds.length := by
  induction ds with
  | nil => rfl
  | cons c cs ih =>
    have hch : c ≠ 'h' := fun e => h (e ▸ List.mem_cons_self c cs)
    have hpre : (List.isPrefixOf ['h'] (c :: (cs ++ ['h']))) = false := by
      show (('h' == c) && List.isPrefixOf [] (cs ++ ['h'])) = false
      rw [beq_eq_false_iff_ne.mpr (fun e => hch e.symm)]
      rfl
    rw [show findSub ['h'] ((c :: cs) ++ ['h']) =
      (if List.isPrefixOf ['h'] (c :: (cs ++ ['h'])) then some 0
       else (findSub ['h'] (cs ++ ['h'])).map (· + 1)) from rfl]
    rw [if_neg (by rw [hpre]; exact Bool.false_ne_true)]
    rw [ih (fun hm => h (List.mem_cons_of_mem c hm))]
    rfl

/-- Helper: taking the length of the left part of an append returns it. -/
theorem take_len_append (l₁ l₂ : List Char) :
    (l₁ ++ l₂).take l₁.length = l₁ := by
  induction l₁ with
  | nil => rfl
  | cons a as ih =>
    show a :: (as ++ l₂).take as.length = a :: as
    rw [ih]

/-- Helper: a nonempty all-digit string within the `i64` range parses to
its numeric value. -/
theorem parseI64_digits (ds : List Char) (hne : ds ≠ [])
    (hdig : ∀ c ∈ ds, c.isDigit)
    (hle : (digitsVal ds : Int) ≤ 2 ^ 63 - 1) :
    parseI64 ds = some ((digitsVal ds : Int)) := by
  cases ds with
  | nil => exact absurd rfl hne
  | cons c cs =>
    have hc : c.isDigit := hdig c (List.mem_cons_self c cs)
    have hcp : ¬ (c = '+') := fun e => absurd (e ▸ hc) (by decide)
    have hcm : ¬ (c = '-') := fun e => absurd (e ▸ hc) (by decide)
    have hdt : digitsToNat (c :: cs) = some (digitsVal (c :: cs)) := by
      show digitsToNatAux (c :: cs) 0 = _
      rw [digitsToNatAux_all_digits (c :: cs) 0 hdig]
      rfl
    have h0 : (0 : Int) ≤ (digitsVal (c :: cs) : Int) := Int.natCast_nonneg _
    simp only [parseI64, if_neg hcp, if_neg hcm, hdt]
    rw [one_mul, if_pos ⟨le_trans (by norm_num) h0, hle⟩]

/-- Helper: any nonempty digit string followed by "h" whose value is
within chrono's hour bound parses to the corresponding number of hours. -/
theorem parse_duration_digit_hours (ds : List Char) (hne : ds ≠ [])
    (hdig : ∀ c ∈ ds, c.isDigit)
    (hle : (digitsVal ds : Int) ≤ chronoMaxHours) :
    parse_duration (String.mk (ds ++ ['h'])) =
      .ret (some ((3600 * digitsVal ds : Int))) := by
  have hh : 'h' ∉ ds := fun hm => absurd (hdig _ hm) (by decide)
  have hle63 : (digitsVal ds : Int) ≤ 2 ^ 63 - 1 :=
    le_trans hle (by norm_num [chronoMaxHours])
  have h0 : (0 : Int) ≤ (digitsVal ds : Int) := Int.natCast_nonneg _
  unfold parse_duration
  rw [show (String.mk (ds ++ ['h'])).toList = ds ++ ['h'] from rfl,
    findSub_h ds hh]
  simp only [take_len_append, parseI64_digits ds hne hdig hle63]
  rw [if_pos ⟨le_trans (by norm_num [chronoMaxHours]) h0, hle⟩]

/-- Helper: any nonempty digit string followed by "h" whose value parses
as an i64 but exceeds chrono's hour bound makes the call abort in
`Duration::hours`. -/
theorem parse_duration_digit_hours_overflow (ds : List Char) (hne : ds ≠ [])
    (hdig : ∀ c ∈ ds, c.isDigit)
    (hgt : chronoMaxHours < (digitsVal ds : Int))
    (hle : (digitsVal ds : Int) ≤ 2 ^ 63 - 1) :
    parse_duration (String.mk (ds ++ ['h'])) =
      .panicked ("Duration::hours out of bounds") := by
  have hh : 'h' ∉ ds := fun hm => absurd (hdig _ hm) (by decide)
  unfold parse_duration
  rw [show (String.mk (ds ++ ['h'])).toList = ds ++ ['h'] from rfl,
    findSub_h ds hh]
  simp only [take_len_append, parseI64_digits ds hne hdig hle]
  rw [if_neg (fun hand => absurd hand.2 (not_le.mpr hgt))]

/-- C9 counterexample: the parser accepts "-5h" (a negative integer,
returning -5 hours) and "2h30min" (trailing text after the first "h" is
ignored, returning 2 hours), both outside the claim's accepted set, so
the set of inputs on which a duration is returned does not coincide with
the claimed pattern. -/
theorem c9_parse_duration_counterexample :
    parse_duration ("-5h") = .ret (some (-18000)) ∧
    specC9Accepts ("-5h") = false ∧
    parse_duration ("2h30min") = .ret (some 7200) ∧
    specC9Accepts ("2h30min") = false ∧
    ¬ (∀ s : String, (parse_duration s).returnsSome = specC9Accepts s) := by
  refine ⟨by decide, by decide, by decide, by decide, fun hall => ?_⟩
  have h5 := hall ("-5h")
  revert h5
  decide

/-- C9 as amended: the parser looks for the first occurrence of "h" (else
of "min") and parses everything before it as a signed 64-bit integer n;
within chrono's `Duration` bounds (|n| at most 2562047788015 hours, resp.
153722867280912 minutes) it returns that many hours (resp. minutes); when
n parses but exceeds those bounds the call aborts in chrono's
`Duration::hours`/`Duration::minutes` panic; when the prefix is not a
valid i64 (fractional values, i64 overflow) or neither "h" nor "min"
occurs, it returns no value.  Canonical forms such as "1h" and "30min"
are accepted; but negative integers are accepted too, and text after the
first "h"/"min" is ignored. -/
theorem c9_parse_duration_amended :
    parse_duration ("1h") = .ret (some 3600) ∧
    parse_duration ("30min") = .ret (some 1800) ∧
    parse_duration ("1.5h") = .ret none ∧
    parse_duration ("90s") = .ret none ∧
    parse_duration ("") = .ret none ∧
    parse_duration ("-5h") = .ret (some (-18000)) ∧
    parse_duration ("2h30min") = .ret (some 7200) ∧
    parse_duration ("3minutes") = .ret (some 180) ∧
    parse_duration ("99999999999999999999h") = .ret none ∧
    parse_duration ("9999999999999h") =
      .panicked ("Duration::hours out of bounds") ∧
    parse_duration ("999999999999999min") =
      .panicked ("Duration::minutes out of bounds") ∧
    (∀ ds : List Char, ds ≠ [] → (∀ c ∈ ds, c.isDigit) →
      (digitsVal ds : Int) ≤ chronoMaxHours →
      parse_duration (String.mk (ds ++ ['h'])) =
        .ret (some ((3600 * digitsVal ds : Int)))) ∧
    (∀ ds : List Char, ds ≠ [] → (∀ c ∈ ds, c.isDigit) →
      chronoMaxHours < (digitsVal ds : Int) →
      (digitsVal ds : Int) ≤ 2 ^ 63 - 1 →
      parse_duration (String.mk (ds ++ ['h'])) =
        .panicked ("Duration::hours out of bounds")) :=
  ⟨by decide, by decide, by decide, by decide, by decide, by decide,
   by decide, by decide, by decide, by decide, by decide,
   parse_duration_digit_hours, parse_duration_digit_hours_overflow⟩

/-- Witness for C9 (amended) at the digit string "42": all hypotheses of
the in-bounds general clause hold and "42h" parses to 42 hours. -/
theorem c9_parse_duration_amended_witness :
    parse_duration (String.mk (['4', '2'] ++ ['h'])) =
      .ret (some ((3600 * digitsVal ['4', '2'] : Int))) :=
  c9_parse_duration_amended.2.2.2.2.2.2.2.2.2.2.2.1 ['4', '2'] (by decide)
    (by decide) (by decide)
